import Mathlib

set_option linter.unusedVariables false

/-! Verification of the PDF-to-email converter core.

Shallow embedding of the email composition and delivery core of the
`pdf_converter` repository (`src/email_sender.py`, `src/config.py`,
`src/main.py`), together with theorems checking the natural-language
specification against it.

Conventions:
* Python `io.BytesIO` buffers are modelled as byte lists (`List Nat`).
* `datetime.now()` is modelled by a parameter `today : Nat`, counting days
  since 1970-01-01 (which was a Thursday); the Python method `date.weekday()`
  (Monday = 0) is then `(today + 3) % 7`, and `strftime("%Y-%m-%d")` is a
  civil-calendar conversion implemented below.
* Exceptions raised by the network (SMTP, HTTP, token acquisition) are
  modelled by an explicit `World` of outcomes; `try/except` blocks become
  pattern matches converting error outcomes into return values.
-/

namespace PdfConverter

/-! ## Definitions: shallow embedding of the program -/

/-- A Python `io.BytesIO` buffer: its byte contents. -/
abbrev ByteBuf := List Nat

/-- Concatenation of a list of strings; models Python `"".join(parts)`. -/
def strcat : List String → String
  | [] => ""
  | s :: rest => s ++ strcat rest

/-- Python `date.weekday()` (Monday = 0): 1970-01-01 was a Thursday (3). -/
def weekday (day : Nat) : Nat := (day + 3) % 7

/-- Convert a day count since 1970-01-01 into a civil (year, month, day). -/
def civilFromDays (day : Nat) : Nat × Nat × Nat :=
  let z := day + 719468
  let era := z / 146097
  let doe := z % 146097
  let yoe := (doe - doe / 1460 + doe / 36524 - doe / 146097) / 365
  let y := yoe + era * 400
  let doy := doe - (365 * yoe + yoe / 4 - yoe / 100)
  let mp := (5 * doy + 2) / 153
  let d := doy - (153 * mp + 2) / 5 + 1
  let m := if mp < 10 then mp + 3 else mp - 9
  (if m ≤ 2 then y + 1 else y, m, d)

/-- Left-pad a string with a character to the given width. -/
def padLeft (s : String) (c : Char) (w : Nat) : String :=
  ⟨List.replicate (w - s.data.length) c ++ s.data⟩

/-- Python `strftime("%Y-%m-%d")` on a day count since 1970-01-01. -/
def strftimeYMD (day : Nat) : String :=
  let ymd := civilFromDays day
  padLeft (Nat.repr ymd.1) '0' 4 ++ "-" ++ padLeft (Nat.repr ymd.2.1) '0' 2
    ++ "-" ++ padLeft (Nat.repr ymd.2.2) '0' 2

/-- The offset `(4 - datetime.now().weekday() + 7) % 7` from
`generate_subject` (Python `%` on a positive modulus, hence `Int.emod`
then `toNat`). -/
def nextFridayOffset (today : Nat) : Nat :=
  ((4 - (weekday today : Int) + 7) % 7).toNat

/-- Python `" ".join([s for s in str_list if s])` on the three subject parts. -/
def subjectJoin (date label subtopic : String) : String :=
  String.intercalate " " (([date, label, subtopic]).filter (fun s => s ≠ ""))

/-- Model of `EmailSender.generate_subject` (src/email_sender.py lines 37-53):
`datetime.now()` is the `today` parameter; `raise ValueError` is
`Except.error`. -/
def generate_subject (today : Nat) (topic_type subtopic : String) :
    Except String String :=
  if topic_type = "" then
    .ok (subjectJoin (strftimeYMD today) "" subtopic)
  else if topic_type = "Non-Onc" ∨ topic_type = "Onc" then
    .ok (subjectJoin (strftimeYMD (today + nextFridayOffset today)) topic_type subtopic)
  else if topic_type = "No Date" then
    .ok (subjectJoin "" "" subtopic)
  else
    .error ("Invalid topic type: " ++ topic_type)

/-- The image tag emitted per image by `create_email_content`
(src/email_sender.py line 60), trailing `<br>` included. -/
def imgTagSmtp (k : Nat) : String :=
  "<img src=\"cid:image" ++ Nat.repr k
    ++ "\" style=\"max-width: 100%; height: auto;\"><br>"

/-- The image tag emitted per image by `create_html_with_cid_references`
(src/email_sender.py line 300). -/
def imgTagCid (k : Nat) : String :=
  "<img src=\"cid:page" ++ Nat.repr k
    ++ "\" style=\"max-width: 100%; height: auto; margin: 10px 0;\" alt=\"Page "
    ++ Nat.repr k ++ "\">"

/-- Model of `EmailSender.create_email_content` (src/email_sender.py lines 55-64):
string accumulation over `range(len(image_buffers))`. -/
def create_email_content (message_body : String) (image_buffers : List ByteBuf) :
    String :=
  let html0 := "<html><body>" ++ message_body ++ "<br><br>"
  let html1 := (List.range image_buffers.length).foldl
    (fun acc i => acc ++ imgTagSmtp (i + 1) ++ "<hr>") html0
  html1 ++ "</body></html>"

/-- The `html_parts` list accumulated by
`EmailSender.create_html_with_cid_references` (src/email_sender.py
lines 295-305). -/
def create_html_with_cid_references_parts (message_body : String)
    (image_buffers : List ByteBuf) : List String :=
  (List.range image_buffers.length).foldl
    (fun html_parts i =>
      let html_parts := html_parts ++ [imgTagCid (i + 1)]
      if i < image_buffers.length - 1 then html_parts ++ ["<hr>"] else html_parts)
    ["<p>" ++ message_body ++ "</p>"]

/-- Model of `EmailSender.create_html_with_cid_references`: `"".join(html_parts)`. -/
def create_html_with_cid_references (message_body : String)
    (image_buffers : List ByteBuf) : String :=
  strcat (create_html_with_cid_references_parts message_body image_buffers)

/-- Part decomposition of the HTML built by `create_email_content`:
header, then an image tag followed by `<hr>` for each of the `n`
images, then the closing tags. -/
def create_email_content_parts (message_body : String) (n : Nat) : List String :=
  ["<html><body>" ++ message_body ++ "<br><br>"]
    ++ (List.range n).flatMap (fun i => [imgTagSmtp (i + 1), "<hr>"])
    ++ ["</body></html>"]

/-- Closed form of the image-and-separator chunks emitted by
`create_html_with_cid_references` for `n` images. -/
def cidChunks (n : Nat) : List String :=
  (List.range n).flatMap
    (fun i => if i < n - 1 then [imgTagCid (i + 1), "<hr>"] else [imgTagCid (i + 1)])

/-- A part is an image tag iff it starts with `<img`. -/
def isImgPart (p : String) : Bool := decide (p.data.take 4 = "<img".data)

/-- Number of `<hr>` separator parts. -/
def hrCount (parts : List String) : Nat :=
  (parts.filter (fun p => p == "<hr>")).length

/-- Whether `needle` occurs at the start of `hay`. -/
def leadsWith : List Char → List Char → Bool
  | [], _ => true
  | _ :: _, [] => false
  | a :: as, b :: bs => a == b && leadsWith as bs

/-- Number of positions at which `needle` occurs inside `hay`. -/
def countSubstr (needle : List Char) : List Char → Nat
  | [] => 0
  | c :: rest => (if leadsWith needle (c :: rest) then 1 else 0) + countSubstr needle rest

/-- Proposition that `needle` occurs somewhere inside `hay`. -/
def strContains (needle hay : String) : Prop :=
  ∃ pre suf, hay.data = pre ++ needle.data ++ suf

/-- Reference decimal rendering of a natural number, most significant
digit first. -/
def decRepr (n : Nat) : List Char :=
  if _h : n < 10 then [Nat.digitChar n]
  else decRepr (n / 10) ++ [Nat.digitChar (n % 10)]
decreasing_by
  exact Nat.div_lt_self (by omega) (by omega)

/-- The `EMAIL_CONFIG` snapshot consumed by `EmailSender.__init__` and
`validate_config`. -/
structure Config where
  smtp_hosts : List (String × String)
  smtp_port : Nat
  sender_email : String
  sender_password : String
  sender_type : String
  recipient_email : String
  microsoft_tenant_id : String
  microsoft_client_id : String
  microsoft_client_secret : String
  use_mime_attachments : Bool

/-- The fixed SMTP host table of `EMAIL_CONFIG["smtp_hosts"]`. -/
def defaultSmtpHosts : List (String × String) :=
  [("gmail", "smtp.gmail.com"), ("microsoft", "smtp.office365.com"),
   ("yahoo", "smtp.mail.yahoo.com")]

/-- Python dict lookup `d[k]`, as an `Option` (a `KeyError` is `none`). -/
def lookup (d : List (String × String)) (k : String) : Option String :=
  (d.find? (fun p => p.1 == k)).map (fun p => p.2)

/-- The RFC 4648 base64 alphabet. -/
def base64Alphabet : List Char :=
  "ABCDEFGHIJKLMNOPQRSTUVWXYZabcdefghijklmnopqrstuvwxyz0123456789+/".data

def b64char (n : Nat) : Char := base64Alphabet.getD n '='

/-- Base64 encoding of a byte sequence, three bytes at a time with `=`
padding. -/
def b64encodeChars : List Nat → List Char
  | [] => []
  | [a] => [b64char (a % 256 / 4), b64char (a % 4 * 16), '=', '=']
  | [a, b] => [b64char (a % 256 / 4), b64char (a % 4 * 16 + b % 256 / 16),
      b64char (b % 16 * 4), '=']
  | a :: b :: c :: rest =>
    b64char (a % 256 / 4) :: b64char (a % 4 * 16 + b % 256 / 16)
      :: b64char (b % 16 * 4 + c % 256 / 64) :: b64char (c % 64)
      :: b64encodeChars rest

def b64encode (bs : ByteBuf) : String := ⟨b64encodeChars bs⟩

/-- Image tag of `create_html_with_images_microsoft_graph`
(src/email_sender.py line 315). -/
def imgTagB64 (bytes : ByteBuf) (k : Nat) : String :=
  "<img src=\"data:image/png;base64," ++ b64encode bytes
    ++ "\" style=\"max-width: 100%; height: auto; margin: 10px 0;\" alt=\"Page "
    ++ Nat.repr k ++ "\">"

/-- Model of `EmailSender.create_html_with_images_microsoft_graph`
(src/email_sender.py lines 307-320). -/
def create_html_with_images_microsoft_graph (message_body : String)
    (image_buffers : List ByteBuf) : String :=
  strcat (image_buffers.enum.foldl
    (fun html_parts p =>
      let html_parts := html_parts ++ [imgTagB64 p.2 (p.1 + 1)]
      if p.1 < image_buffers.length - 1 then html_parts ++ ["<hr>"] else html_parts)
    ["<p>" ++ message_body ++ "</p>"])

/-- A MIME image attachment: raw bytes, filename, and the `Content-ID`
header value exactly as `add_header` writes it (angle brackets included). -/
structure Attachment where
  data : ByteBuf
  name : String
  contentId : String

/-- The `MIMEMultipart` message assembled by `compose_email`. -/
structure MimeMessage where
  fromAddr : String
  toAddr : String
  subject : String
  html : String
  attachments : List Attachment

/-- Model of `EmailSender.compose_email` (src/email_sender.py lines 66-120). -/
def compose_email (cfg : Config) (subject message_body : String)
    (image_buffers : List ByteBuf) : MimeMessage :=
  if cfg.sender_type = "microsoft_graph" then
    if cfg.use_mime_attachments then
      { fromAddr := cfg.sender_email, toAddr := cfg.recipient_email,
        subject := subject,
        html := create_html_with_cid_references message_body image_buffers,
        attachments := image_buffers.enum.map (fun p =>
          { data := p.2, name := "page" ++ Nat.repr (p.1 + 1) ++ ".png",
            contentId := "<page" ++ Nat.repr (p.1 + 1) ++ ">" }) }
    else
      { fromAddr := cfg.sender_email, toAddr := cfg.recipient_email,
        subject := subject,
        html := create_html_with_images_microsoft_graph message_body image_buffers,
        attachments := [] }
  else
    { fromAddr := cfg.sender_email, toAddr := cfg.recipient_email,
      subject := subject,
      html := create_email_content message_body image_buffers,
      attachments := image_buffers.enum.map (fun p =>
        { data := p.2, name := "image" ++ Nat.repr (p.1 + 1) ++ ".png",
          contentId := "<image" ++ Nat.repr (p.1 + 1) ++ ">" }) }

structure GraphAttachment where
  odata_type : String
  name : String
  contentType : String
  contentBytes : String
  contentId : String
  isInline : Bool

structure GraphBody where
  contentType : String
  content : String

structure GraphMessage where
  subject : String
  body : GraphBody
  toRecipients : List String
  attachments : Option (List GraphAttachment)

structure GraphPayload where
  message : GraphMessage
  saveToSentItems : String

structure GraphRequest where
  url : String
  payload : GraphPayload

def graph_sendmail_url (cfg : Config) : String :=
  "https://graph.microsoft.com/v1.0/users/" ++ cfg.sender_email ++ "/sendMail"

/-- The JSON payload built by `send_email_microsoft_graph_with_attachments`
(src/email_sender.py lines 179-201). -/
def graph_payload_with_attachments (cfg : Config) (subject html : String)
    (image_buffers : List ByteBuf) : GraphPayload :=
  { message :=
      { subject := subject
        body := { contentType := "HTML", content := html }
        toRecipients := [cfg.recipient_email]
        attachments := some (image_buffers.enum.map (fun p =>
          { odata_type := "#microsoft.graph.fileAttachment"
            name := "page" ++ Nat.repr (p.1 + 1) ++ ".png"
            contentType := "image/png"
            contentBytes := b64encode p.2
            contentId := "page" ++ Nat.repr (p.1 + 1)
            isInline := true })) }
    saveToSentItems := "true" }

/-- The JSON payload built by `send_email_microsoft_graph_simple`
(src/email_sender.py lines 234-241): no attachments field at all. -/
def graph_payload_simple (cfg : Config) (subject html : String) : GraphPayload :=
  { message :=
      { subject := subject
        body := { contentType := "HTML", content := html }
        toRecipients := [cfg.recipient_email]
        attachments := none }
    saveToSentItems := "true" }

/-- The request POSTed by `send_email_microsoft_graph_with_attachments`. -/
def graph_request_with_attachments (cfg : Config) (msg : MimeMessage)
    (image_buffers : List ByteBuf) : GraphRequest :=
  { url := graph_sendmail_url cfg
    payload := graph_payload_with_attachments cfg msg.subject msg.html image_buffers }

/-- The request POSTed by `send_email_microsoft_graph_simple`. -/
def graph_request_simple (cfg : Config) (msg : MimeMessage) : GraphRequest :=
  { url := graph_sendmail_url cfg
    payload := graph_payload_simple cfg msg.subject msg.html }

/-- Outcome of the SMTP exchange inside the `try` block of `send_email_smtp`. -/
inductive SmtpEvent
  | ok
  | authFail
  | smtpFail (msg : String)
  | otherFail (msg : String)
deriving DecidableEq

/-- Outcome of the token request in `acquire_microsoft_graph_token`. -/
inductive TokenEvent
  | ok (token : String)
  | fail (err desc : String)
deriving DecidableEq

/-- Outcome of `requests.post(...)` plus `response.raise_for_status()`. -/
inductive HttpEvent
  | ok
  | httpFail (msg : String)
  | otherFail (msg : String)
deriving DecidableEq

/-- The network environment of one send attempt. -/
structure World where
  smtp : SmtpEvent
  token : TokenEvent
  http : HttpEvent

/-- Model of `EmailSender.acquire_microsoft_graph_token` (lines 279-293): the token,
or the `RuntimeError` it raises when the response has no access token. -/
def acquire_microsoft_graph_token (w : World) : Except String String :=
  match w.token with
  | .ok t => .ok t
  | .fail err desc => .error ("Token request failed: " ++ err ++ "\n" ++ desc)

/-- Model of `EmailSender.send_email_smtp` (lines 141-161). A missing host key
raises `KeyError` inside the `try`, caught by the generic handler. -/
def send_email_smtp (cfg : Config) (w : World) : Bool × Option String :=
  match lookup cfg.smtp_hosts cfg.sender_type with
  | none =>
    (false, some ("An error occurred while sending email: "
      ++ "\x27" ++ cfg.sender_type ++ "\x27"))
  | some _host =>
    match w.smtp with
    | .ok => (true, none)
    | .authFail =>
      (false, some "Authentication failed. Please check your email credentials.")
    | .smtpFail e => (false, some ("SMTP error occurred: " ++ e))
    | .otherFail e => (false, some ("An error occurred while sending email: " ++ e))

/-- Model of `EmailSender.send_email_microsoft_graph_with_attachments`
(lines 163-219): token acquisition happens inside the `try`, so its
`RuntimeError` is caught by the generic handler. -/
def send_email_microsoft_graph_with_attachments (cfg : Config)
    (msg : MimeMessage) (image_buffers : List ByteBuf) (w : World) :
    Bool × Option String :=
  match acquire_microsoft_graph_token w with
  | .error e =>
    (false, some ("An error occurred while sending email via Microsoft Graph with attachments: "
      ++ e))
  | .ok _token =>
    match w.http with
    | .ok => (true, none)
    | .httpFail e => (false, some ("Microsoft Graph API error with attachments: " ++ e))
    | .otherFail e =>
      (false, some ("An error occurred while sending email via Microsoft Graph with attachments: "
        ++ e))

/-- Model of `EmailSender.send_email_microsoft_graph_simple` (lines 221-259). -/
def send_email_microsoft_graph_simple (cfg : Config) (msg : MimeMessage)
    (w : World) : Bool × Option String :=
  match acquire_microsoft_graph_token w with
  | .error e => (false, some ("An error occurred while sending email: " ++ e))
  | .ok _token =>
    match w.http with
    | .ok => (true, none)
    | .httpFail e => (false, some ("Microsoft Graph API error: " ++ e))
    | .otherFail e => (false, some ("An error occurred while sending email: " ++ e))

/-- Model of `EmailSender.send_email` (lines 122-139): dispatch over the transport;
for Graph the image buffers are re-extracted from the image parts of the message. -/
def send_email (cfg : Config) (msg : MimeMessage) (w : World) :
    Bool × Option String :=
  if cfg.sender_type = "microsoft_graph" then
    let image_buffers := msg.attachments.map (fun a => a.data)
    if cfg.use_mime_attachments then
      send_email_microsoft_graph_with_attachments cfg msg image_buffers w
    else
      send_email_microsoft_graph_simple cfg msg w
  else
    send_email_smtp cfg w

/-- Model of `validate_config` (src/config.py lines 76-103): the issues dict as an
ordered key/message list. -/
def validate_config (cfg : Config) : List (String × String) :=
  (if cfg.sender_email = ""
    then [("sender_email", "sender_email not set in secrets")] else [])
  ++ (if cfg.recipient_email = ""
    then [("recipient_email", "recipient_email not set in secrets")] else [])
  ++ (if cfg.sender_type = "microsoft_graph" then
        (if cfg.microsoft_tenant_id = ""
          then [("microsoft_tenant_id", "microsoft_tenant_id not set in secrets")] else [])
        ++ (if cfg.microsoft_client_id = ""
          then [("microsoft_client_id", "microsoft_client_id not set in secrets")] else [])
        ++ (if cfg.microsoft_client_secret = ""
          then [("microsoft_client_secret", "microsoft_client_secret not set in secrets")] else [])
      else if (lookup cfg.smtp_hosts cfg.sender_type).isSome then
        (if cfg.sender_password = ""
          then [("sender_password", "sender_password not set in secrets")] else [])
      else
        [("sender_type", "Invalid sender type: " ++ cfg.sender_type
          ++ ". Options: microsoft, gmail, yahoo, microsoft_graph")])

/-- Steps of `main` (src/main.py) relevant to validation and sending. -/
inductive AppAction
  | validateConfig
  | stopWithConfigErrors
  | sendAttempt
deriving DecidableEq

/-- Control flow of `main` (src/main.py lines 161-199):
`validate_environment` runs first; `st.stop()` ends the script when issues
exist, so a send can only be attempted afterwards. -/
def main_actions (cfg : Config) (hasImages sendClicked : Bool) : List AppAction :=
  AppAction.validateConfig ::
    (if validate_config cfg ≠ [] then [AppAction.stopWithConfigErrors]
     else if hasImages && sendClicked then [AppAction.sendAttempt]
     else [])

/-- An SMTP-type example configuration. -/
def cfgSmtpExample : Config :=
  { smtp_hosts := defaultSmtpHosts, smtp_port := 587,
    sender_email := "sender@example.com", sender_password := "pw",
    sender_type := "gmail", recipient_email := "rcpt@example.com",
    microsoft_tenant_id := "", microsoft_client_id := "",
    microsoft_client_secret := "", use_mime_attachments := true }

/-- A Microsoft Graph example configuration. -/
def cfgGraphExample : Config :=
  { smtp_hosts := defaultSmtpHosts, smtp_port := 587,
    sender_email := "sender@example.com", sender_password := "",
    sender_type := "microsoft_graph", recipient_email := "rcpt@example.com",
    microsoft_tenant_id := "t", microsoft_client_id := "c",
    microsoft_client_secret := "s", use_mime_attachments := true }

/-- A network world in which the SMTP server rejects the credentials. -/
def worldAuthFail : World :=
  { smtp := SmtpEvent.authFail, token := TokenEvent.ok "tok", http := HttpEvent.ok }

/-- A trivial composed message for witnesses. -/
def msgExample : MimeMessage :=
  { fromAddr := "sender@example.com", toAddr := "rcpt@example.com",
    subject := "s", html := "<p>b</p>", attachments := [] }

/-- A Graph configuration with every mandatory field missing. -/
def cfgMissingExample : Config :=
  { smtp_hosts := defaultSmtpHosts, smtp_port := 587,
    sender_email := "", sender_password := "",
    sender_type := "microsoft_graph", recipient_email := "",
    microsoft_tenant_id := "", microsoft_client_id := "",
    microsoft_client_secret := "", use_mime_attachments := true }

/-! ## Theorems -/

theorem str_ext {a b : String} (h : a.data = b.data) : a = b := by
  cases a; cases b; exact congrArg String.mk h

theorem str_data_append (a b : String) : (a ++ b).data = a.data ++ b.data := by
  cases a; cases b; rfl

theorem strcat_data (l : List String) :
    (strcat l).data = (l.map String.data).flatten := by
  induction l with
  | nil => rfl
  | cons s rest ih => simp [strcat, str_data_append, ih]

theorem strcat_append (a b : List String) :
    strcat (a ++ b) = strcat a ++ strcat b := by
  apply str_ext
  simp [strcat_data, str_data_append]

theorem str_append_assoc (a b c : String) : (a ++ b) ++ c = a ++ (b ++ c) := by
  apply str_ext
  simp [str_data_append]

theorem foldl_str_append (g : Nat → String) :
    ∀ (l : List Nat) (init : String),
      l.foldl (fun acc i => acc ++ g i) init = init ++ strcat (l.map g) := by
  intro l
  induction l with
  | nil =>
    intro init
    apply str_ext
    simp [strcat, str_data_append]
  | cons a as ih =>
    intro init
    rw [List.foldl_cons, ih, List.map_cons]
    show init ++ g a ++ strcat (as.map g) = init ++ strcat (g a :: as.map g)
    rw [str_append_assoc]
    rfl

theorem foldl_list_chunks {α : Type} (g : Nat → List α) :
    ∀ (l : List Nat) (init : List α),
      l.foldl (fun acc i => acc ++ g i) init = init ++ l.flatMap g := by
  intro l
  induction l with
  | nil => intro init; simp
  | cons a as ih => intro init; simp [List.foldl_cons, ih]

/-- The `html_parts` accumulation equals head plus closed-form chunks. -/
theorem cid_parts_eq (body : String) (bufs : List ByteBuf) :
    create_html_with_cid_references_parts body bufs
      = ("<p>" ++ body ++ "</p>") :: cidChunks bufs.length := by
  unfold create_html_with_cid_references_parts cidChunks
  have hfun : (fun (html_parts : List String) i =>
      let html_parts := html_parts ++ [imgTagCid (i + 1)]
      if i < bufs.length - 1 then html_parts ++ ["<hr>"] else html_parts)
    = fun acc i =>
        acc ++ (if i < bufs.length - 1 then [imgTagCid (i + 1), "<hr>"]
                else [imgTagCid (i + 1)]) := by
    funext acc i
    by_cases h : i < bufs.length - 1 <;> simp [h]
  rw [hfun, foldl_list_chunks]
  simp

theorem strcat_bind_pair (f g : Nat → String) (l : List Nat) :
    strcat (l.flatMap (fun i => [f i, g i])) = strcat (l.map (fun i => f i ++ g i)) := by
  apply str_ext
  rw [strcat_data, strcat_data]
  induction l with
  | nil => rfl
  | cons a as ih =>
    simp only [List.flatMap_cons, List.map_cons, List.map_append, List.flatten_cons,
      List.flatten_append, str_data_append] at *
    simp [ih]

/-- The string built by `create_email_content` equals the concatenation of its part
decomposition. -/
theorem create_email_content_eq (body : String) (bufs : List ByteBuf) :
    create_email_content body bufs
      = strcat (create_email_content_parts body bufs.length) := by
  have hfun : (fun (acc : String) i => acc ++ imgTagSmtp (i + 1) ++ "<hr>")
      = fun acc i => acc ++ (imgTagSmtp (i + 1) ++ "<hr>") := by
    funext acc i
    rw [str_append_assoc]
  show (List.range bufs.length).foldl
      (fun acc i => acc ++ imgTagSmtp (i + 1) ++ "<hr>")
      ("<html><body>" ++ body ++ "<br><br>") ++ "</body></html>"
    = strcat (create_email_content_parts body bufs.length)
  rw [hfun, foldl_str_append (fun i => imgTagSmtp (i + 1) ++ "<hr>")]
  unfold create_email_content_parts
  rw [strcat_append, strcat_append, ← strcat_bind_pair]
  simp only [strcat]
  apply str_ext
  simp [str_data_append]

theorem take4_of_long (L R : List Char) (h4 : 4 ≤ L.length) :
    (L ++ R).take 4 = L.take 4 := by
  rw [List.take_append_eq_append_take]
  have h0 : 4 - L.length = 0 := by omega
  simp [h0]

theorem four_le_append (L R : List Char) (h : 4 ≤ L.length) :
    4 ≤ (L ++ R).length := by
  rw [List.length_append]
  omega

theorem isImgPart_imgTagSmtp (k : Nat) : isImgPart (imgTagSmtp k) = true := by
  simp only [isImgPart, decide_eq_true_eq, imgTagSmtp, str_data_append]
  rw [take4_of_long _ _ (four_le_append _ _ (by decide)),
    take4_of_long _ _ (by decide)]
  decide

theorem isImgPart_imgTagCid (k : Nat) : isImgPart (imgTagCid k) = true := by
  simp only [isImgPart, decide_eq_true_eq, imgTagCid, str_data_append]
  rw [take4_of_long _ _ (four_le_append _ _
      (four_le_append _ _ (four_le_append _ _ (by decide)))),
    take4_of_long _ _ (four_le_append _ _ (four_le_append _ _ (by decide))),
    take4_of_long _ _ (four_le_append _ _ (by decide)),
    take4_of_long _ _ (by decide)]
  decide

theorem isImgPart_hr : isImgPart "<hr>" = false := by decide

theorem isImgPart_close : isImgPart "</body></html>" = false := by decide

theorem isImgPart_pwrap (body : String) :
    isImgPart ("<p>" ++ body ++ "</p>") = false := by
  simp only [isImgPart, decide_eq_false_iff_not, str_data_append]
  intro h
  simp only [List.cons_append, List.take_succ_cons] at h
  injection h with _ h
  injection h with h _
  exact absurd h (by decide)

theorem isImgPart_htmlHead (body : String) :
    isImgPart ("<html><body>" ++ body ++ "<br><br>") = false := by
  simp only [isImgPart, decide_eq_false_iff_not, str_data_append]
  intro h
  simp only [List.cons_append, List.take_succ_cons] at h
  injection h with _ h
  injection h with h _
  exact absurd h (by decide)

theorem imgTagSmtp_ne_hr (k : Nat) : (imgTagSmtp k == "<hr>") = false := by
  simp only [beq_eq_false_iff_ne, ne_eq]
  intro h
  have := congrArg String.data h
  rw [imgTagSmtp, str_data_append, str_data_append] at this
  have h0 : "<img src=\"cid:image".data
      = '<' :: 'i' :: "mg src=\"cid:image".data := rfl
  rw [h0] at this
  simp only [List.cons_append] at this
  injection this with _ this
  injection this with this _
  exact absurd this (by decide)

theorem imgTagCid_ne_hr (k : Nat) : (imgTagCid k == "<hr>") = false := by
  simp only [beq_eq_false_iff_ne, ne_eq]
  intro h
  have := congrArg String.data h
  rw [imgTagCid, str_data_append, str_data_append, str_data_append,
    str_data_append] at this
  have h0 : "<img src=\"cid:page".data
      = '<' :: 'i' :: "mg src=\"cid:page".data := rfl
  rw [h0] at this
  simp only [List.cons_append] at this
  injection this with _ this
  injection this with this _
  exact absurd this (by decide)

theorem pwrap_ne_hr (body : String) : (("<p>" ++ body ++ "</p>") == "<hr>") = false := by
  simp only [beq_eq_false_iff_ne, ne_eq]
  intro h
  have := congrArg String.data h
  rw [str_data_append, str_data_append] at this
  have h0 : "<p>".data = '<' :: 'p' :: ">".data := rfl
  rw [h0] at this
  simp only [List.cons_append] at this
  injection this with _ this
  injection this with this _
  exact absurd this (by decide)

theorem htmlHead_ne_hr (body : String) :
    (("<html><body>" ++ body ++ "<br><br>") == "<hr>") = false := by
  simp only [beq_eq_false_iff_ne, ne_eq]
  intro h
  have := congrArg String.data h
  rw [str_data_append, str_data_append] at this
  have h0 : "<html><body>".data = '<' :: 'h' :: 't' :: "ml><body>".data := rfl
  rw [h0] at this
  simp only [List.cons_append] at this
  injection this with _ h1
  injection h1 with _ h2
  injection h2 with h3 _
  exact absurd h3 (by decide)

theorem hrCount_append (a b : List String) :
    hrCount (a ++ b) = hrCount a + hrCount b := by
  simp [hrCount, List.filter_append]

/-- A run of image-tag/`<hr>` pairs contributes one separator per image. -/
theorem hrCount_pair_flatMap (f : Nat → String)
    (hf : ∀ i, (f i == "<hr>") = false) (m : Nat) :
    hrCount ((List.range m).flatMap (fun i => [f i, "<hr>"])) = m := by
  induction m with
  | zero => rfl
  | succ k ih =>
    rw [List.range_succ, List.flatMap_append, hrCount_append, ih]
    simp [hrCount, hf k]

/-- The image-tag parts of a run of image/`<hr>` pairs, in order. -/
theorem filter_img_pair_flatMap (f : Nat → String)
    (hf : ∀ i, isImgPart (f i) = true) (m : Nat) :
    ((List.range m).flatMap (fun i => [f i, "<hr>"])).filter isImgPart
      = (List.range m).map f := by
  induction m with
  | zero => rfl
  | succ k ih =>
    rw [List.range_succ, List.flatMap_append, List.filter_append, ih,
      List.map_append]
    simp [hf k, isImgPart_hr]

/-- For `n ≥ 1` the cid chunks are `n - 1` image/`<hr>` pairs followed by a
final bare image tag. -/
theorem cidChunks_decomp (n : Nat) (hn : 1 ≤ n) :
    cidChunks n
      = (List.range (n - 1)).flatMap (fun i => [imgTagCid (i + 1), "<hr>"])
        ++ [imgTagCid n] := by
  obtain ⟨m, rfl⟩ : ∃ m, n = m + 1 := ⟨n - 1, by omega⟩
  unfold cidChunks
  rw [List.range_succ, List.flatMap_append]
  have h1 : ∀ l : List Nat, (∀ i ∈ l, i < m) →
      l.flatMap (fun i => if i < m + 1 - 1 then [imgTagCid (i + 1), "<hr>"]
        else [imgTagCid (i + 1)])
      = l.flatMap (fun i => [imgTagCid (i + 1), "<hr>"]) := by
    intro l
    induction l with
    | nil => intro _; rfl
    | cons a as ih =>
      intro hmem
      rw [List.flatMap_cons, List.flatMap_cons, ih (fun i hi => hmem i (by simp [hi]))]
      have ha : a < m := hmem a (by simp)
      simp [ha]
  rw [h1 (List.range m) (fun i hi => List.mem_range.mp hi)]
  simp

theorem imgTagCid_ne_hr' (k : Nat) : imgTagCid k ≠ "<hr>" :=
  beq_eq_false_iff_ne.mp (imgTagCid_ne_hr k)

theorem pwrap_ne_hr' (body : String) : ("<p>" ++ body ++ "</p>") ≠ "<hr>" :=
  beq_eq_false_iff_ne.mp (pwrap_ne_hr body)

/-- The cid-referenced HTML never ends with a separator part. -/
theorem cid_parts_getLast_ne_hr (body : String) (bufs : List ByteBuf) :
    (create_html_with_cid_references_parts body bufs).getLast? ≠ some "<hr>" := by
  rw [cid_parts_eq]
  rcases Nat.eq_zero_or_pos bufs.length with h | h
  · rw [h]
    show (("<p>" ++ body ++ "</p>") :: cidChunks 0).getLast? ≠ some "<hr>"
    have h0 : cidChunks 0 = [] := rfl
    rw [h0]
    simp only [List.getLast?_singleton, ne_eq, Option.some.injEq]
    exact pwrap_ne_hr' body
  · rw [cidChunks_decomp bufs.length h, ← List.cons_append, List.getLast?_concat]
    simp only [ne_eq, Option.some.injEq]
    exact imgTagCid_ne_hr' bufs.length

/-- C1 counterexample: composing under the SMTP HTML composer
(`create_email_content`) with one image yields one `<hr>` substring,
where the claim demands `n - 1 = 0`. -/
theorem C1_counterexample :
    countSubstr "<hr>".data (create_email_content "" [[]]).data = 1
  ∧ (1 : Nat) ≠ 1 - 1 := by
  constructor
  · decide
  · decide

/-- Image tags of the cid-referenced HTML: one per image, in input order. -/
theorem cid_parts_filter_img (body : String) (bufs : List ByteBuf) :
    (create_html_with_cid_references_parts body bufs).filter isImgPart
      = (List.range bufs.length).map (fun i => imgTagCid (i + 1)) := by
  rw [cid_parts_eq]
  rcases Nat.eq_zero_or_pos bufs.length with h | h
  · rw [h]
    have h0 : cidChunks 0 = [] := rfl
    rw [h0]
    simp [isImgPart_pwrap body]
  · obtain ⟨m, hm⟩ : ∃ m, bufs.length = m + 1 := ⟨bufs.length - 1, by omega⟩
    rw [hm, cidChunks_decomp (m + 1) (by omega), Nat.add_sub_cancel]
    have hpairs := filter_img_pair_flatMap (fun i => imgTagCid (i + 1))
      (fun i => isImgPart_imgTagCid (i + 1)) m
    simp [List.filter_cons, isImgPart_pwrap body, List.filter_append, hpairs,
      isImgPart_imgTagCid, List.range_succ]

/-- Separator count of the cid-referenced HTML: `n - 1`. -/
theorem cid_parts_hrCount (body : String) (bufs : List ByteBuf) :
    hrCount (create_html_with_cid_references_parts body bufs) = bufs.length - 1 := by
  rw [cid_parts_eq]
  rcases Nat.eq_zero_or_pos bufs.length with h | h
  · rw [h]
    have h0 : cidChunks 0 = [] := rfl
    rw [h0]
    simp [hrCount, pwrap_ne_hr body]
  · obtain ⟨m, hm⟩ : ∃ m, bufs.length = m + 1 := ⟨bufs.length - 1, by omega⟩
    rw [hm, cidChunks_decomp (m + 1) (by omega), Nat.add_sub_cancel]
    have hp := hrCount_pair_flatMap (fun i => imgTagCid (i + 1))
      (fun i => imgTagCid_ne_hr (i + 1)) m
    simp only [hrCount] at hp ⊢
    simp [List.filter_cons, pwrap_ne_hr body, List.filter_append, imgTagCid_ne_hr, hp]

/-- Image tags of the SMTP HTML: one per image, in input order. -/
theorem smtp_parts_filter_img (body : String) (n : Nat) :
    (create_email_content_parts body n).filter isImgPart
      = (List.range n).map (fun i => imgTagSmtp (i + 1)) := by
  unfold create_email_content_parts
  have hpairs := filter_img_pair_flatMap (fun i => imgTagSmtp (i + 1))
    (fun i => isImgPart_imgTagSmtp (i + 1)) n
  simp [List.filter_append, List.filter_cons, isImgPart_htmlHead body,
    isImgPart_close, hpairs]

/-- Separator count of the SMTP HTML: `n`, one after every image. -/
theorem smtp_parts_hrCount (body : String) (n : Nat) :
    hrCount (create_email_content_parts body n) = n := by
  unfold create_email_content_parts
  have hp := hrCount_pair_flatMap (fun i => imgTagSmtp (i + 1))
    (fun i => imgTagSmtp_ne_hr (i + 1)) n
  simp only [hrCount] at hp ⊢
  simp [List.filter_append, List.filter_cons, htmlHead_ne_hr body, hp]

/-- C1 (amended): both composers emit exactly `n` `cid:` image tags in
input order; the Graph CID composer `create_html_with_cid_references`
emits exactly `n - 1` separators, with none after the last image, while
the SMTP composer `create_email_content` emits one separator after every
image including the last, hence exactly `n` separators (and for `n = 0`
neither composer emits image tags or separators). -/
theorem C1_html_image_tags_and_separators (body : String) (bufs : List ByteBuf) :
    create_html_with_cid_references body bufs
        = strcat (create_html_with_cid_references_parts body bufs)
  ∧ (create_html_with_cid_references_parts body bufs).filter isImgPart
        = (List.range bufs.length).map (fun i => imgTagCid (i + 1))
  ∧ hrCount (create_html_with_cid_references_parts body bufs) = bufs.length - 1
  ∧ (create_html_with_cid_references_parts body bufs).getLast? ≠ some "<hr>"
  ∧ create_email_content body bufs = strcat (create_email_content_parts body bufs.length)
  ∧ (create_email_content_parts body bufs.length).filter isImgPart
        = (List.range bufs.length).map (fun i => imgTagSmtp (i + 1))
  ∧ hrCount (create_email_content_parts body bufs.length) = bufs.length :=
  ⟨rfl, cid_parts_filter_img body bufs, cid_parts_hrCount body bufs,
    cid_parts_getLast_ne_hr body bufs, create_email_content_eq body bufs,
    smtp_parts_filter_img body bufs.length, smtp_parts_hrCount body bufs.length⟩

/-- C1 witness: the amended statement instantiated at one image. -/
theorem C1_html_image_tags_and_separators_witness :
    create_html_with_cid_references "b" [[0]]
        = strcat (create_html_with_cid_references_parts "b" [[0]])
  ∧ (create_html_with_cid_references_parts "b" [[0]]).filter isImgPart
        = (List.range ([[0]] : List ByteBuf).length).map (fun i => imgTagCid (i + 1))
  ∧ hrCount (create_html_with_cid_references_parts "b" [[0]])
        = ([[0]] : List ByteBuf).length - 1
  ∧ (create_html_with_cid_references_parts "b" [[0]]).getLast? ≠ some "<hr>"
  ∧ create_email_content "b" [[0]]
        = strcat (create_email_content_parts "b" ([[0]] : List ByteBuf).length)
  ∧ (create_email_content_parts "b" ([[0]] : List ByteBuf).length).filter isImgPart
        = (List.range ([[0]] : List ByteBuf).length).map (fun i => imgTagSmtp (i + 1))
  ∧ hrCount (create_email_content_parts "b" ([[0]] : List ByteBuf).length)
        = ([[0]] : List ByteBuf).length :=
  C1_html_image_tags_and_separators "b" [[0]]

/-- C10: under the ReferencedAttachment strategy the composed HTML depends
only on the body and the number of images, never on the image bytes. -/
theorem C10_html_ignores_image_bytes (body : String) (b1 b2 : List ByteBuf)
    (h : b1.length = b2.length) :
    create_email_content body b1 = create_email_content body b2
  ∧ create_html_with_cid_references body b1 = create_html_with_cid_references body b2 := by
  unfold create_email_content create_html_with_cid_references
    create_html_with_cid_references_parts
  rw [h]
  exact ⟨rfl, rfl⟩

/-- C10 witness: two different byte lists of equal length give identical HTML. -/
theorem C10_html_ignores_image_bytes_witness :
    ([[0], [1]] : List ByteBuf).length = ([[2], [3]] : List ByteBuf).length
  ∧ (create_email_content "b" [[0], [1]] = create_email_content "b" [[2], [3]]
     ∧ create_html_with_cid_references "b" [[0], [1]]
         = create_html_with_cid_references "b" [[2], [3]]) :=
  ⟨rfl, C10_html_ignores_image_bytes "b" [[0], [1]] [[2], [3]] rfl⟩

/-- C5: for each of the four accepted classifications the subject is the
space-join of the non-empty components `[date, label, subtopic]`; for
`No Date` it equals the subtopic exactly, for every subtopic. -/
theorem C5_subject_is_join_of_nonempty (today : Nat) (s : String) :
    generate_subject today "" s = .ok (subjectJoin (strftimeYMD today) "" s)
  ∧ generate_subject today "Non-Onc" s
      = .ok (subjectJoin (strftimeYMD (today + nextFridayOffset today)) "Non-Onc" s)
  ∧ generate_subject today "Onc" s
      = .ok (subjectJoin (strftimeYMD (today + nextFridayOffset today)) "Onc" s)
  ∧ generate_subject today "No Date" s = .ok s := by
  refine ⟨rfl, by simp [generate_subject], by simp [generate_subject], ?_⟩
  have hnd : generate_subject today "No Date" s = .ok (subjectJoin "" "" s) := by
    simp [generate_subject]
  rw [hnd]
  have hj : subjectJoin "" "" s = s := by
    unfold subjectJoin
    by_cases hs : s = ""
    · simp [hs]
      rfl
    · simp [hs]
      rfl
  rw [hj]

/-- C3: for `Onc`/`Non-Onc` the subject date is today plus
`(4 - weekday + 7) % 7`: two days ahead on a Wednesday, the same day on a
Friday. -/
theorem C3_wednesday_and_friday_dates (today : Nat) (t s : String)
    (ht : t = "Non-Onc" ∨ t = "Onc") :
    (weekday today = 2 →
      generate_subject today t s = .ok (subjectJoin (strftimeYMD (today + 2)) t s))
  ∧ (weekday today = 4 →
      generate_subject today t s = .ok (subjectJoin (strftimeYMD today) t s)) := by
  constructor
  · intro hw
    have hoff : nextFridayOffset today = 2 := by
      unfold nextFridayOffset
      rw [hw]
      decide
    rcases ht with rfl | rfl <;> simp [generate_subject, hoff]
  · intro hw
    have hoff : nextFridayOffset today = 0 := by
      unfold nextFridayOffset
      rw [hw]
      decide
    rcases ht with rfl | rfl <;> simp [generate_subject, hoff]

/-- C3 witness: day 6 (1970-01-07, a Wednesday, `weekday = 2`) maps to the
Friday two days later; the Friday clause holds vacuously there. -/
theorem C3_wednesday_and_friday_dates_witness :
    (("Non-Onc" : String) = "Non-Onc" ∨ ("Non-Onc" : String) = "Onc")
  ∧ ((weekday 6 = 2 →
        generate_subject 6 "Non-Onc" "x"
          = .ok (subjectJoin (strftimeYMD (6 + 2)) "Non-Onc" "x"))
     ∧ (weekday 6 = 4 →
        generate_subject 6 "Non-Onc" "x"
          = .ok (subjectJoin (strftimeYMD 6) "Non-Onc" "x"))) :=
  ⟨Or.inl rfl, C3_wednesday_and_friday_dates 6 "Non-Onc" "x" (Or.inl rfl)⟩

/-- C2 counterexample: day 1 since epoch is 1970-01-02, a Friday
(`weekday = 4`); the date component of the subject is that same day,
`1970-01-02`, and the date seven days later formats differently, so the
claimed "seven days later" date is not the one produced. -/
theorem C2_counterexample :
    weekday 1 = 4
  ∧ generate_subject 1 "Onc" "x" = .ok (strftimeYMD 1 ++ " Onc x")
  ∧ strftimeYMD 1 = "1970-01-02"
  ∧ strftimeYMD (1 + 7) = "1970-01-09"
  ∧ strftimeYMD 1 ≠ strftimeYMD (1 + 7) := by
  refine ⟨by decide, rfl, by decide, by decide, by decide⟩

/-- C2 (amended): when the current date is a Friday the offset
`(4 - weekday + 7) % 7` is `0`, so the date component of the subject is the
current date itself — the same Friday, not seven days later. -/
theorem C2_friday_is_same_day (today : Nat) (t s : String)
    (hw : weekday today = 4) (ht : t = "Non-Onc" ∨ t = "Onc") :
    nextFridayOffset today = 0
  ∧ generate_subject today t s = .ok (subjectJoin (strftimeYMD today) t s) := by
  have hoff : nextFridayOffset today = 0 := by
    unfold nextFridayOffset
    rw [hw]
    decide
  refine ⟨hoff, ?_⟩
  rcases ht with rfl | rfl <;> simp [generate_subject, hoff]

/-- C2 witness: the amended statement at the concrete Friday 1970-01-02. -/
theorem C2_friday_is_same_day_witness :
    weekday 1 = 4
  ∧ (("Onc" : String) = "Non-Onc" ∨ ("Onc" : String) = "Onc")
  ∧ (nextFridayOffset 1 = 0
     ∧ generate_subject 1 "Onc" "x" = .ok (subjectJoin (strftimeYMD 1) "Onc" "x")) :=
  ⟨by decide, Or.inr rfl, C2_friday_is_same_day 1 "Onc" "x" (by decide) (Or.inr rfl)⟩

/-- C8: any classification outside the four accepted values is rejected
with an error whose message names the offending value; no branch defaults
silently. -/
theorem C8_invalid_topic_is_error (today : Nat) (t s : String)
    (h1 : t ≠ "") (h2 : t ≠ "Non-Onc") (h3 : t ≠ "Onc") (h4 : t ≠ "No Date") :
    generate_subject today t s = .error ("Invalid topic type: " ++ t)
  ∧ strContains t ("Invalid topic type: " ++ t) := by
  constructor
  · simp [generate_subject, h1, h2, h3, h4]
  · exact ⟨"Invalid topic type: ".data, [], by rw [str_data_append]; simp⟩

/-- C8 witness: the unrecognized classification `"Bogus"` is rejected. -/
theorem C8_invalid_topic_is_error_witness :
    ("Bogus" : String) ≠ ""
  ∧ ("Bogus" : String) ≠ "Non-Onc"
  ∧ ("Bogus" : String) ≠ "Onc"
  ∧ ("Bogus" : String) ≠ "No Date"
  ∧ (generate_subject 0 "Bogus" "x" = .error ("Invalid topic type: " ++ "Bogus")
     ∧ strContains "Bogus" ("Invalid topic type: " ++ "Bogus")) :=
  ⟨by decide, by decide, by decide, by decide,
    C8_invalid_topic_is_error 0 "Bogus" "x" (by decide) (by decide) (by decide) (by decide)⟩

theorem decRepr_eq_small {n : Nat} (h : n < 10) : decRepr n = [Nat.digitChar n] := by
  conv_lhs => rw [decRepr]
  simp [h]

theorem decRepr_eq_large {n : Nat} (h : ¬ n < 10) :
    decRepr n = decRepr (n / 10) ++ [Nat.digitChar (n % 10)] := by
  conv_lhs => rw [decRepr]
  simp [h]

theorem decRepr_ne_nil (n : Nat) : decRepr n ≠ [] := by
  by_cases h : n < 10
  · rw [decRepr_eq_small h]
    simp
  · rw [decRepr_eq_large h]
    simp

theorem toDigitsCore_eq_decRepr (n : Nat) :
    ∀ (fuel : Nat) (acc : List Char), n < fuel →
      Nat.toDigitsCore 10 fuel n acc = decRepr n ++ acc := by
  induction n using Nat.strong_induction_on with
  | _ n ih =>
    intro fuel acc hfuel
    obtain ⟨f, rfl⟩ : ∃ f, fuel = f + 1 := ⟨fuel - 1, by omega⟩
    show Nat.toDigitsCore 10 (f + 1) n acc = decRepr n ++ acc
    rw [Nat.toDigitsCore]
    by_cases h0 : n / 10 = 0
    · have hn : n < 10 := by omega
      simp only [h0, if_true]
      rw [decRepr_eq_small hn, Nat.mod_eq_of_lt hn]
      rfl
    · have hn : ¬ n < 10 := by
        intro h
        exact h0 (Nat.div_eq_of_lt h)
      simp only [h0, if_false]
      have hlt : n / 10 < n := Nat.div_lt_self (by omega) (by omega)
      rw [ih (n / 10) hlt f (Nat.digitChar (n % 10) :: acc) (by omega),
        decRepr_eq_large hn]
      simp

theorem toDigits_eq_decRepr (n : Nat) : Nat.toDigits 10 n = decRepr n := by
  rw [Nat.toDigits, toDigitsCore_eq_decRepr n (n + 1) [] (by omega)]
  simp

theorem digitChar_inj_lt10 (a b : Nat) (ha : a < 10) (hb : b < 10)
    (h : Nat.digitChar a = Nat.digitChar b) : a = b := by
  interval_cases a <;> interval_cases b <;> first | rfl | exact absurd h (by decide)

theorem decRepr_inj (m : Nat) : ∀ n, decRepr m = decRepr n → m = n := by
  induction m using Nat.strong_induction_on with
  | _ m ih =>
    intro n h
    by_cases hm : m < 10 <;> by_cases hn : n < 10
    · rw [decRepr_eq_small hm, decRepr_eq_small hn] at h
      injection h with h _
      exact digitChar_inj_lt10 m n hm hn h
    · rw [decRepr_eq_small hm, decRepr_eq_large hn] at h
      have hlen := congrArg List.length h
      simp only [List.length_append, List.length_cons, List.length_nil] at hlen
      exact absurd (List.length_eq_zero.mp (by omega)) (decRepr_ne_nil (n / 10))
    · rw [decRepr_eq_large hm, decRepr_eq_small hn] at h
      have hlen := congrArg List.length h
      simp only [List.length_append, List.length_cons, List.length_nil] at hlen
      exact absurd (List.length_eq_zero.mp (by omega)) (decRepr_ne_nil (m / 10))
    · rw [decRepr_eq_large hm, decRepr_eq_large hn] at h
      obtain ⟨hq, hd⟩ := List.append_inj' h rfl
      have hdiv : m / 10 = n / 10 :=
        ih (m / 10) (Nat.div_lt_self (by omega) (by omega)) (n / 10) hq
      have hdigit : m % 10 = n % 10 := by
        injection hd with hd _
        exact digitChar_inj_lt10 _ _ (Nat.mod_lt _ (by omega)) (Nat.mod_lt _ (by omega)) hd
      omega

theorem natRepr_inj {m n : Nat} (h : Nat.repr m = Nat.repr n) : m = n := by
  apply decRepr_inj
  have h2 := congrArg String.data h
  rw [Nat.repr, Nat.repr] at h2
  simpa [List.asString, toDigits_eq_decRepr] using h2

theorem zip_map_fst_eq {α β : Type} (g : Nat → β) :
    ∀ (r : List Nat) (l : List α), r.length = l.length →
      ((r.zip l).map (fun p => g p.1)) = r.map g := by
  intro r
  induction r with
  | nil => intro l h; simp
  | cons a as ih =>
    intro l h
    cases l with
    | nil => simp at h
    | cons b bs =>
      simp only [List.zip_cons_cons, List.map_cons]
      rw [ih bs (by simpa using h)]

theorem zip_map_snd_eq {α β : Type} (g : α → β) :
    ∀ (r : List Nat) (l : List α), r.length = l.length →
      ((r.zip l).map (fun p => g p.2)) = l.map g := by
  intro r
  induction r with
  | nil =>
    intro l h
    have h0 : l = [] := List.length_eq_zero.mp h.symm
    simp [h0]
  | cons a as ih =>
    intro l h
    cases l with
    | nil => simp at h
    | cons b bs =>
      simp only [List.zip_cons_cons, List.map_cons]
      rw [ih bs (by simpa using h)]

theorem enum_map_fst_f {α β : Type} (l : List α) (g : Nat → β) :
    (l.enum.map (fun p => g p.1)) = (List.range l.length).map g := by
  rw [List.enum_eq_zip_range]
  exact zip_map_fst_eq g _ l (by simp)

theorem enum_map_snd_f {α β : Type} (l : List α) (g : α → β) :
    (l.enum.map (fun p => g p.2)) = l.map g := by
  rw [List.enum_eq_zip_range]
  exact zip_map_snd_eq g _ l (by simp)

/-- The map `i ↦ pre ++ Nat.repr (i + 1) ++ suf` is injective, so the produced
content-id lists have no duplicates. -/
theorem nodup_repr_wrap (pre suf : String) (n : Nat) :
    ((List.range n).map (fun i => pre ++ Nat.repr (i + 1) ++ suf)).Nodup := by
  have hinj : Function.Injective (fun i : Nat => pre ++ Nat.repr (i + 1) ++ suf) := by
    intro i j hij
    simp only at hij
    have hd := congrArg String.data hij
    rw [str_data_append, str_data_append, str_data_append, str_data_append] at hd
    have h1 := (List.append_inj' hd rfl).1
    have h2 := List.append_cancel_left h1
    have h3 := natRepr_inj (str_ext h2)
    omega
  exact (List.nodup_range n).map hinj

/-- C6: `compose_email` tags each image attachment with a dense, 1-based,
unique content-id in input order: `image{n}` for SMTP-type senders,
`page{n}` for the Graph sender with MIME attachments (the `Content-ID`
header wraps the id in angle brackets). -/
theorem C6_content_id_naming (cfg : Config) (subject body : String)
    (bufs : List ByteBuf) :
    (cfg.sender_type ≠ "microsoft_graph" →
      ((compose_email cfg subject body bufs).attachments.map Attachment.contentId
          = (List.range bufs.length).map (fun i => "<image" ++ Nat.repr (i + 1) ++ ">")
        ∧ (compose_email cfg subject body bufs).attachments.map Attachment.data = bufs
        ∧ ((compose_email cfg subject body bufs).attachments.map Attachment.contentId).Nodup))
  ∧ (cfg.sender_type = "microsoft_graph" → cfg.use_mime_attachments = true →
      ((compose_email cfg subject body bufs).attachments.map Attachment.contentId
          = (List.range bufs.length).map (fun i => "<page" ++ Nat.repr (i + 1) ++ ">")
        ∧ (compose_email cfg subject body bufs).attachments.map Attachment.data = bufs
        ∧ ((compose_email cfg subject body bufs).attachments.map Attachment.contentId).Nodup)) := by
  constructor
  · intro hne
    have hatt : (compose_email cfg subject body bufs).attachments
        = bufs.enum.map (fun p =>
            { data := p.2, name := "image" ++ Nat.repr (p.1 + 1) ++ ".png",
              contentId := "<image" ++ Nat.repr (p.1 + 1) ++ ">" }) := by
      simp [compose_email, hne]
    rw [hatt, List.map_map, List.map_map]
    have hcid : (bufs.enum.map (fun p => "<image" ++ Nat.repr (p.1 + 1) ++ ">"))
        = (List.range bufs.length).map (fun i => "<image" ++ Nat.repr (i + 1) ++ ">") :=
      enum_map_fst_f bufs (fun i => "<image" ++ Nat.repr (i + 1) ++ ">")
    refine ⟨hcid, ?_, ?_⟩
    · show bufs.enum.map (fun p => p.2) = bufs
      simpa using enum_map_snd_f bufs (fun x => x)
    · show (bufs.enum.map (fun p => "<image" ++ Nat.repr (p.1 + 1) ++ ">")).Nodup
      rw [hcid]
      exact nodup_repr_wrap "<image" ">" bufs.length
  · intro hmg hmime
    have hatt : (compose_email cfg subject body bufs).attachments
        = bufs.enum.map (fun p =>
            { data := p.2, name := "page" ++ Nat.repr (p.1 + 1) ++ ".png",
              contentId := "<page" ++ Nat.repr (p.1 + 1) ++ ">" }) := by
      simp [compose_email, hmg, hmime]
    rw [hatt, List.map_map, List.map_map]
    have hcid : (bufs.enum.map (fun p => "<page" ++ Nat.repr (p.1 + 1) ++ ">"))
        = (List.range bufs.length).map (fun i => "<page" ++ Nat.repr (i + 1) ++ ">") :=
      enum_map_fst_f bufs (fun i => "<page" ++ Nat.repr (i + 1) ++ ">")
    refine ⟨hcid, ?_, ?_⟩
    · show bufs.enum.map (fun p => p.2) = bufs
      simpa using enum_map_snd_f bufs (fun x => x)
    · show (bufs.enum.map (fun p => "<page" ++ Nat.repr (p.1 + 1) ++ ">")).Nodup
      rw [hcid]
      exact nodup_repr_wrap "<page" ">" bufs.length

/-- C6 witness: content-ids for two images are `<image1>, <image2>` via
SMTP and `<page1>, <page2>` via Graph. -/
theorem C6_content_id_naming_witness :
    (compose_email cfgSmtpExample "s" "b" [[1], [2]]).attachments.map Attachment.contentId
        = ["<image1>", "<image2>"]
  ∧ (compose_email cfgGraphExample "s" "b" [[1], [2]]).attachments.map Attachment.contentId
        = ["<page1>", "<page2>"] := by
  have h1 := (C6_content_id_naming cfgSmtpExample "s" "b" [[1], [2]]).1 (by decide)
  have h2 := (C6_content_id_naming cfgGraphExample "s" "b" [[1], [2]]).2 rfl rfl
  refine ⟨?_, ?_⟩
  · rw [h1.1]
    decide
  · rw [h2.1]
    decide

/-- C7: the Graph sendMail request carries subject, HTML body and
recipient; with MIME attachments it carries one inline, base64-encoded,
`page{n}`-tagged attachment per image; the simple (inline-base64) variant
carries no attachments field at all. -/
theorem C7_graph_payload_shape (cfg : Config) (msg : MimeMessage)
    (bufs : List ByteBuf) :
    (graph_request_with_attachments cfg msg bufs).url = graph_sendmail_url cfg
  ∧ (graph_request_with_attachments cfg msg bufs).payload.message.subject = msg.subject
  ∧ (graph_request_with_attachments cfg msg bufs).payload.message.body
      = { contentType := "HTML", content := msg.html }
  ∧ (graph_request_with_attachments cfg msg bufs).payload.message.toRecipients
      = [cfg.recipient_email]
  ∧ (graph_request_with_attachments cfg msg bufs).payload.message.attachments
      = some (bufs.enum.map (fun p =>
          { odata_type := "#microsoft.graph.fileAttachment"
            name := "page" ++ Nat.repr (p.1 + 1) ++ ".png"
            contentType := "image/png"
            contentBytes := b64encode p.2
            contentId := "page" ++ Nat.repr (p.1 + 1)
            isInline := true }))
  ∧ (∃ l, (graph_request_with_attachments cfg msg bufs).payload.message.attachments
        = some l ∧ l.length = bufs.length)
  ∧ (graph_request_simple cfg msg).url = graph_sendmail_url cfg
  ∧ (graph_request_simple cfg msg).payload.message.subject = msg.subject
  ∧ (graph_request_simple cfg msg).payload.message.body
      = { contentType := "HTML", content := msg.html }
  ∧ (graph_request_simple cfg msg).payload.message.toRecipients = [cfg.recipient_email]
  ∧ (graph_request_simple cfg msg).payload.message.attachments = none := by
  refine ⟨rfl, rfl, rfl, rfl, rfl, ⟨_, rfl, ?_⟩, rfl, rfl, rfl, rfl, rfl⟩
  simp [List.length_map, List.enum_length]

/-- C4: for every configuration, message and network outcome, `send_email`
returns a boolean: success is `(true, none)` and every failure — host
lookup, authentication, SMTP protocol, token acquisition, HTTP, or any
other exception — is `(false, diagnostic)`; in particular a simulated SMTP
authentication failure returns `false` with the authentication diagnostic,
which mentions authentication. -/
theorem C4_send_email_never_raises (cfg : Config) (msg : MimeMessage) (w : World) :
    (send_email cfg msg w = (true, none)
      ∨ ((send_email cfg msg w).1 = false ∧ ((send_email cfg msg w).2).isSome = true))
  ∧ (cfg.sender_type ≠ "microsoft_graph" →
      (lookup cfg.smtp_hosts cfg.sender_type).isSome = true →
      w.smtp = SmtpEvent.authFail →
      send_email cfg msg w
        = (false, some "Authentication failed. Please check your email credentials."))
  ∧ strContains "Authentication"
      "Authentication failed. Please check your email credentials." := by
  refine ⟨?_, ?_, ⟨[], " failed. Please check your email credentials.".data, by decide⟩⟩
  · unfold send_email
    by_cases hmg : cfg.sender_type = "microsoft_graph" <;> simp only [hmg, if_true, if_false]
    · by_cases hum : cfg.use_mime_attachments <;> simp only [hum, if_true, if_false]
      · unfold send_email_microsoft_graph_with_attachments acquire_microsoft_graph_token
        cases w.token <;> cases w.http <;> simp
      · unfold send_email_microsoft_graph_simple acquire_microsoft_graph_token
        cases w.token <;> cases w.http <;> simp
    · unfold send_email_smtp
      cases lookup cfg.smtp_hosts cfg.sender_type <;> cases w.smtp <;> simp
  · intro hne hsome hauth
    have hdisp : send_email cfg msg w = send_email_smtp cfg w := by
      simp [send_email, hne]
    rw [hdisp]
    unfold send_email_smtp
    cases hl : lookup cfg.smtp_hosts cfg.sender_type with
    | none => rw [hl] at hsome; simp at hsome
    | some h => rw [hauth]

/-- C4 witness: a simulated SMTP authentication failure on a gmail-type
configuration returns `false` with the authentication diagnostic. -/
theorem C4_send_email_never_raises_witness :
    cfgSmtpExample.sender_type ≠ "microsoft_graph"
  ∧ (lookup cfgSmtpExample.smtp_hosts cfgSmtpExample.sender_type).isSome = true
  ∧ worldAuthFail.smtp = SmtpEvent.authFail
  ∧ send_email cfgSmtpExample msgExample worldAuthFail
      = (false, some "Authentication failed. Please check your email credentials.") :=
  ⟨by decide, by decide, rfl,
    (C4_send_email_never_raises cfgSmtpExample msgExample worldAuthFail).2.1
      (by decide) (by decide) rfl⟩

/-- C9: one call to `validate_config` reports every missing mandatory
field for the active sender type simultaneously (membership of each key in
the issue list depends only on that field being missing, not on the other
checks), an unsupported sender type is reported, and `main` validates
before any send: validation is the first action, and when issues exist the
script stops, so no send is ever attempted. -/
theorem C9_validate_config_reports_all (cfg : Config) (hasImages sendClicked : Bool) :
    (("sender_email" ∈ (validate_config cfg).map Prod.fst) ↔ cfg.sender_email = "")
  ∧ (("recipient_email" ∈ (validate_config cfg).map Prod.fst) ↔ cfg.recipient_email = "")
  ∧ (cfg.sender_type = "microsoft_graph" →
      ((("microsoft_tenant_id" ∈ (validate_config cfg).map Prod.fst)
          ↔ cfg.microsoft_tenant_id = "")
       ∧ (("microsoft_client_id" ∈ (validate_config cfg).map Prod.fst)
          ↔ cfg.microsoft_client_id = "")
       ∧ (("microsoft_client_secret" ∈ (validate_config cfg).map Prod.fst)
          ↔ cfg.microsoft_client_secret = "")))
  ∧ (cfg.sender_type ≠ "microsoft_graph" →
      (lookup cfg.smtp_hosts cfg.sender_type).isSome = true →
      (("sender_password" ∈ (validate_config cfg).map Prod.fst)
        ↔ cfg.sender_password = ""))
  ∧ (cfg.sender_type ≠ "microsoft_graph" →
      (lookup cfg.smtp_hosts cfg.sender_type).isSome = false →
      "sender_type" ∈ (validate_config cfg).map Prod.fst)
  ∧ (main_actions cfg hasImages sendClicked).head? = some AppAction.validateConfig
  ∧ (validate_config cfg ≠ [] →
      AppAction.sendAttempt ∉ main_actions cfg hasImages sendClicked) := by
  refine ⟨?_, ?_, ?_, ?_, ?_, rfl, ?_⟩
  · unfold validate_config
    split_ifs <;> simp_all
  · unfold validate_config
    split_ifs <;> simp_all
  · intro hmg
    refine ⟨?_, ?_, ?_⟩ <;>
      · unfold validate_config
        split_ifs <;> simp_all
  · intro hne hsome
    unfold validate_config
    split_ifs <;> simp_all
  · intro hne hnone
    unfold validate_config
    split_ifs <;> simp_all
  · intro hne
    unfold main_actions
    rw [if_pos hne]
    simp

/-- C9 witness: with everything missing, all five mandatory Graph fields
are reported in the single call, and no send is attempted. -/
theorem C9_validate_config_reports_all_witness :
    ("sender_email" ∈ (validate_config cfgMissingExample).map Prod.fst)
  ∧ ("recipient_email" ∈ (validate_config cfgMissingExample).map Prod.fst)
  ∧ ("microsoft_tenant_id" ∈ (validate_config cfgMissingExample).map Prod.fst)
  ∧ ("microsoft_client_id" ∈ (validate_config cfgMissingExample).map Prod.fst)
  ∧ ("microsoft_client_secret" ∈ (validate_config cfgMissingExample).map Prod.fst)
  ∧ AppAction.sendAttempt ∉ main_actions cfgMissingExample true true := by
  obtain ⟨h1, h2, h3, _h4, _h5, _h6, h7⟩ :=
    C9_validate_config_reports_all cfgMissingExample true true
  obtain ⟨h3a, h3b, h3c⟩ := h3 rfl
  exact ⟨h1.mpr rfl, h2.mpr rfl, h3a.mpr rfl, h3b.mpr rfl, h3c.mpr rfl,
    h7 (by decide)⟩

end PdfConverter
